import Mathlib

/-!
Verification of the compass-service decision/confidence core.

Shallow embedding of `src/services/compass-service/` (Python) into Lean 4:
pure numeric code is modelled over ℚ (Python floats carry exact decimal
constants here and no claim depends on binary rounding), stateful
orchestrator code becomes explicit state passing over `JourneyState`,
fallible operations return `Except`.  External collaborators (OpenAI
question generation, response analysis, narrative insights, Redis storage)
are inputs: their outputs are parameters of the embedded operations.
Wall-clock fields (timestamps, durations) and demographics plumbing are
omitted: no verified property mentions them.
-/

namespace Compass

/-! ### Data model, from `compass_schemas.py` -/

/-- The six RIASEC dimensions (`dimensions` list in `confidence_scorer.py`). -/
inductive Dimension
  | realistic
  | investigative
  | artistic
  | social
  | enterprising
  | conventional
deriving DecidableEq, Repr

/-- `JourneyStatus` enum. -/
inductive JourneyStatus
  | NOT_STARTED
  | IN_PROGRESS
  | COMPLETED
  | ABANDONED
deriving DecidableEq, Repr

/-- `DecisionType` enum. -/
inductive DecisionType
  | CONTINUE
  | CLARIFY
  | COMPLETE
  | SAVE_PARTIAL
deriving DecidableEq, Repr

/-- `CareerMotivator` (evidence text omitted; no claim reads it). -/
structure CareerMotivator where
  type : String
  strength : ℚ
  confidence : ℚ
deriving DecidableEq, Repr

/-- `Interest` (the legacy `area`/`weight` aliases of the pydantic model are
resolved by its `model_post_init`; the embedded record holds the resolved
fields). -/
structure Interest where
  category : String
  specific : String
  enthusiasm : ℚ
deriving DecidableEq, Repr

/-- One entry of `ResponseAnalysis.riasec_signals[dim]`: a dict with a
`score` and a `confidence` field. -/
structure RiasecSignal where
  score : ℚ
  confidence : ℚ
deriving DecidableEq, Repr

/-- `response_quality` literal. -/
inductive Quality
  | high
  | medium
  | low
deriving DecidableEq, Repr

/-- `ResponseAnalysis`: the per-answer signal extraction.  The
`riasec_signals` dict keyed by dimension name becomes a partial map. -/
structure ResponseAnalysis where
  riasec_signals : Dimension → Option RiasecSignal
  motivators : List CareerMotivator
  interests : List Interest
  response_quality : Quality

/-- `UserResponse` (timestamp and response time omitted). -/
structure UserResponse where
  question_id : String
  response_text : String
  skipped : Bool
deriving DecidableEq, Repr

/-- `GeneratedQuestion` (text/options/targets omitted: the orchestrator only
reads `question_id`, and appends the record). -/
structure GeneratedQuestion where
  question_id : String
  question_number : ℕ
deriving DecidableEq, Repr

/-- `RIASECConfidence`. -/
structure RIASECConfidence where
  realistic : ℚ
  investigative : ℚ
  artistic : ℚ
  social : ℚ
  enterprising : ℚ
  conventional : ℚ
deriving DecidableEq, Repr

/-- `ConfidenceScore`. -/
structure ConfidenceScore where
  riasec_confidence : RIASECConfidence
  motivator_confidence : ℚ
  interest_confidence : ℚ
  overall_confidence : ℚ
  ready_to_complete : Bool
  gaps_remaining : List String
deriving DecidableEq, Repr

/-- `JourneyDecision`. -/
structure JourneyDecision where
  decision : DecisionType
  reasoning : String
  next_focus : Option String
  confidence_score : ConfidenceScore
deriving DecidableEq, Repr

/-- `JourneyState` (timestamps, demographics, preferences and the final
`completed_profile` payload omitted; `status` records completion). -/
structure JourneyState where
  journey_id : String
  user_id : String
  status : JourneyStatus
  current_question_number : ℕ
  questions_asked : List GeneratedQuestion
  responses : List UserResponse
  analyses : List ResponseAnalysis
  current_confidence : Option ConfidenceScore
  identified_motivators : List CareerMotivator
  identified_interests : List Interest
  clarifications_used : ℕ

/-! ### Shared numeric helpers -/

/-- `np.average(values, weights)` over (value, weight) pairs. -/
def weightedAverage (entries : List (ℚ × ℚ)) : ℚ :=
  (entries.map fun p => p.1 * p.2).sum / (entries.map fun p => p.2).sum

/-- Python's round-half-to-even, as used by an `:.0f` format specifier
(only decorative strings depend on it). -/
def pyRound (q : ℚ) : ℤ :=
  let f := ⌊q⌋
  let r := q - f
  if r < 1/2 then f
  else if 1/2 < r then f + 1
  else if f % 2 = 0 then f else f + 1

/-- Rendering of `f-string` `:.0f` interpolation. -/
def fmt0 (q : ℚ) : String := toString (pyRound q)

/-- Python `needle in haystack` on strings. -/
def containsSub (s pat : String) : Bool := decide (pat.toList <:+: s.toList)

/-! ### Confidence scorer, from `confidence_scorer.py` -/

def min_signals_for_confidence : ℕ := 3

def skip_penalty : ℚ := 10

/-- Canonical dimension order (`dimensions` list literal). -/
def riasecDimensions : List Dimension :=
  [.realistic, .investigative, .artistic, .social, .enterprising, .conventional]

/-- The (confidence, weight) pairs collected for one dimension inside
`_calculate_riasec_confidence`: entry `i` of the full analyses list gets
weight `1.0 + (i / len(analyses)) * 0.5` when it carries the dimension. -/
def dimensionEntries (analyses : List ResponseAnalysis) (d : Dimension) :
    List (ℚ × ℚ) :=
  analyses.enum.filterMap fun p =>
    ((p.2).riasec_signals d).map fun s =>
      (s.confidence, 1 + ((p.1 : ℚ) / (analyses.length : ℚ)) * (1/2))

/-- Per-dimension body of `_calculate_riasec_confidence`. -/
def riasec_dimension_confidence (analyses : List ResponseAnalysis)
    (d : Dimension) : ℚ :=
  let entries := dimensionEntries analyses d
  if entries.isEmpty then 0
  else
    let weighted_avg := weightedAverage entries
    let signal_count_bonus : ℚ := min ((entries.length : ℚ) * 5) 20
    let confidence := min (weighted_avg + signal_count_bonus) 100
    if entries.length < min_signals_for_confidence then
      confidence * ((entries.length : ℚ) / (min_signals_for_confidence : ℚ))
    else confidence

/-- `_calculate_riasec_confidence`. -/
def calculate_riasec_confidence (analyses : List ResponseAnalysis) :
    RIASECConfidence where
  realistic := riasec_dimension_confidence analyses .realistic
  investigative := riasec_dimension_confidence analyses .investigative
  artistic := riasec_dimension_confidence analyses .artistic
  social := riasec_dimension_confidence analyses .social
  enterprising := riasec_dimension_confidence analyses .enterprising
  conventional := riasec_dimension_confidence analyses .conventional

/-- All motivator signals flattened across the history. -/
def allMotivators (analyses : List ResponseAnalysis) : List CareerMotivator :=
  (analyses.map (·.motivators)).flatten

/-- All interest signals flattened across the history. -/
def allInterests (analyses : List ResponseAnalysis) : List Interest :=
  (analyses.map (·.interests)).flatten

/-- The strengths recorded for one motivator type. -/
def strengthsOf (l : List CareerMotivator) (t : String) : List ℚ :=
  (l.filter fun m => m.type = t).map (·.strength)

/-- `_calculate_motivator_confidence`.  `np.std` (population standard
deviation) is irrational in general, so it is passed in as a parameter
`std`; every verified property of this function holds for an arbitrary
`std`, and on histories where no motivator type repeats `std` is never
consulted. -/
def calculate_motivator_confidence (std : List ℚ → ℚ)
    (analyses : List ResponseAnalysis) : ℚ :=
  let motivators := allMotivators analyses
  let identified := (motivators.map (·.type)).dedup
  let coverage : ℚ := (identified.length : ℚ) / 12 * 100
  let consistency_scores : List ℚ := identified.filterMap fun t =>
    let strengths := strengthsOf motivators t
    if 1 < strengths.length then some (max 0 (100 - std strengths * 20))
    else none
  let avg_consistency : ℚ :=
    if consistency_scores.isEmpty then 50
    else consistency_scores.sum / (consistency_scores.length : ℚ)
  let confidence := coverage * (6/10) + avg_consistency * (4/10)
  let confidence :=
    if identified.length < 5 then confidence * ((identified.length : ℚ) / 5)
    else confidence
  min confidence 100

/-- The enthusiasms recorded for one interest category. -/
def enthusiasmsOf (l : List Interest) (c : String) : List ℚ :=
  (l.filter fun x => x.category = c).map (·.enthusiasm)

/-- `_calculate_interest_confidence`. -/
def calculate_interest_confidence (analyses : List ResponseAnalysis) : ℚ :=
  let interests := allInterests analyses
  let total_interests := interests.length
  if total_interests = 0 then 0
  else
    let categories := (interests.map (·.category)).dedup
    let depth_scores : List ℚ := categories.map fun c =>
      let enths := enthusiasmsOf interests c
      let avg_enthusiasm := enths.sum / (enths.length : ℚ)
      let count_factor := min ((enths.length : ℚ) / 3) 1
      avg_enthusiasm * 10 * count_factor
    let avg_depth : ℚ :=
      if depth_scores.isEmpty then 0
      else depth_scores.sum / (depth_scores.length : ℚ)
    let diversity_score : ℚ := min ((categories.length : ℚ) / 5 * 100) 100
    let confidence := diversity_score * (4/10) + avg_depth * (6/10)
    let confidence :=
      if total_interests < 5 then confidence * ((total_interests : ℚ) / 5)
      else confidence
    min confidence 100

/-- `_calculate_skip_adjustment`. -/
def calculate_skip_adjustment (responses : List UserResponse) : ℚ :=
  let total_count := responses.length
  if total_count = 0 then 0
  else
    let skipped_count := (responses.filter (·.skipped)).length
    let skip_rate := (skipped_count : ℚ) / (total_count : ℚ)
    let adjustment := -(skip_rate * skip_penalty * (total_count : ℚ))
    adjustment

/-- `_calculate_overall_confidence`. -/
def calculate_overall_confidence (riasec : RIASECConfidence)
    (motivator interest skip_adjustment : ℚ) : ℚ :=
  let riasec_avg := (riasec.realistic + riasec.investigative + riasec.artistic
    + riasec.social + riasec.enterprising + riasec.conventional) / 6
  let base_confidence :=
    riasec_avg * (1/2) + motivator * (3/10) + interest * (1/5)
  let adjusted_confidence := max 0 (base_confidence + skip_adjustment)
  min adjusted_confidence 100

/-- `_is_ready_to_complete`. -/
def is_ready_to_complete (overall_confidence : ℚ) (questions_asked : ℕ) :
    Bool :=
  if 12 ≤ questions_asked ∧ 85 ≤ overall_confidence then true
  else if 15 ≤ questions_asked ∧ 75 ≤ overall_confidence then true
  else if 18 ≤ questions_asked then true
  else false

/-- `_identify_gaps`. -/
def identify_gaps (riasec : RIASECConfidence)
    (motivator_confidence interest_confidence : ℚ) : List String :=
  let riasec_scores : List (String × ℚ) :=
    [("Realistic", riasec.realistic), ("Investigative", riasec.investigative),
     ("Artistic", riasec.artistic), ("Social", riasec.social),
     ("Enterprising", riasec.enterprising),
     ("Conventional", riasec.conventional)]
  let gaps := (riasec_scores.filter fun p => p.2 < 60).map fun p =>
    p.1 ++ " dimension (confidence: " ++ fmt0 p.2 ++ "%)"
  let gaps :=
    if motivator_confidence < 70 then
      gaps ++ ["Career motivators (confidence: " ++ fmt0 motivator_confidence
        ++ "%)"]
    else gaps
  if interest_confidence < 60 then
    gaps ++ ["Personal interests (confidence: " ++ fmt0 interest_confidence
      ++ "%)"]
  else gaps

/-- `calculate_confidence` on a journey state. -/
def calculate_confidence (std : List ℚ → ℚ) (js : JourneyState) :
    ConfidenceScore :=
  let riasec_confidence := calculate_riasec_confidence js.analyses
  let motivator_confidence := calculate_motivator_confidence std js.analyses
  let interest_confidence := calculate_interest_confidence js.analyses
  let skip_adjustment := calculate_skip_adjustment js.responses
  let overall_confidence := calculate_overall_confidence riasec_confidence
    motivator_confidence interest_confidence skip_adjustment
  { riasec_confidence := riasec_confidence
    motivator_confidence := motivator_confidence
    interest_confidence := interest_confidence
    overall_confidence := overall_confidence
    ready_to_complete :=
      is_ready_to_complete overall_confidence js.current_question_number
    gaps_remaining :=
      identify_gaps riasec_confidence motivator_confidence
        interest_confidence }

/-! ### Decision engine, from `decision_engine.py` -/

def min_questions : ℕ := 12

def standard_questions : ℕ := 15

def max_clarifications : ℕ := 3

def high_confidence_threshold : ℚ := 85

def acceptable_confidence_threshold : ℚ := 75

/-- `_identify_next_focus`: ad hoc substring checks over the rendered text
of the most critical gap. -/
def identify_next_focus (confidence_score : ConfidenceScore) : String :=
  match confidence_score.gaps_remaining with
  | [] => "Exploring general career preferences"
  | primary_gap :: _ =>
    if containsSub primary_gap "Realistic" then
      "Understanding hands-on and practical interests"
    else if containsSub primary_gap "Investigative" then
      "Exploring analytical and research interests"
    else if containsSub primary_gap "Artistic" then
      "Discovering creative and expressive preferences"
    else if containsSub primary_gap "Social" then
      "Understanding interpersonal and helping motivations"
    else if containsSub primary_gap "Enterprising" then
      "Exploring leadership and business interests"
    else if containsSub primary_gap "Conventional" then
      "Understanding organizational and structured work preferences"
    else if containsSub primary_gap.toLower "motivators" then
      "Identifying key career drivers and values"
    else if containsSub primary_gap.toLower "interests" then
      "Discovering specific areas of enthusiasm"
    else primary_gap

/-- `_determine_decision`: the priority-ordered rule chain, returning
(decision, reasoning, next focus). -/
def determine_decision (questions_asked clarifications_used : ℕ)
    (overall_confidence : ℚ) (confidence_score : ConfidenceScore) :
    DecisionType × String × Option String :=
  if min_questions ≤ questions_asked ∧
      high_confidence_threshold ≤ overall_confidence then
    (.COMPLETE,
      "High confidence achieved (" ++ fmt0 overall_confidence ++ "%) after "
        ++ toString questions_asked ++ " questions",
      none)
  else if questions_asked < standard_questions then
    if overall_confidence < high_confidence_threshold then
      (.CONTINUE,
        "Continuing assessment (question " ++ toString (questions_asked + 1)
          ++ "/15, confidence: " ++ fmt0 overall_confidence ++ "%)",
        some (identify_next_focus confidence_score))
    else
      (.CONTINUE,
        "Confidence is high (" ++ fmt0 overall_confidence
          ++ "%) but gathering additional data",
        some "Confirming strong signals and exploring edge cases")
  else if questions_asked = standard_questions then
    if acceptable_confidence_threshold ≤ overall_confidence then
      (.COMPLETE,
        "Standard assessment complete with good confidence ("
          ++ fmt0 overall_confidence ++ "%)",
        none)
    else if clarifications_used < max_clarifications then
      let gaps := confidence_score.gaps_remaining.take 2
      (.CLARIFY,
        "Confidence at " ++ fmt0 overall_confidence
          ++ "% - clarifying key gaps",
        some ("Clarifying: " ++
          (if gaps.isEmpty then "lowest confidence areas"
           else String.intercalate ", " gaps)))
    else
      (.COMPLETE,
        "Completing with available data (confidence: "
          ++ fmt0 overall_confidence ++ "%)",
        none)
  else if standard_questions < questions_asked then
    if max_clarifications ≤ clarifications_used then
      (.COMPLETE,
        "Maximum clarifications reached - completing with "
          ++ fmt0 overall_confidence ++ "% confidence",
        none)
    else if acceptable_confidence_threshold ≤ overall_confidence then
      (.COMPLETE,
        "Acceptable confidence achieved (" ++ fmt0 overall_confidence
          ++ "%) after clarifications",
        none)
    else
      let remaining_clarifications := max_clarifications - clarifications_used
      if 0 < remaining_clarifications then
        let next_gap := confidence_score.gaps_remaining.head?.getD
          "general clarity"
        (.CLARIFY,
          "Using clarification " ++ toString (clarifications_used + 1)
            ++ "/" ++ toString max_clarifications ++ " to improve confidence",
          some ("Focusing on: " ++ next_gap))
      else
        (.COMPLETE,
          "Completing assessment with " ++ fmt0 overall_confidence
            ++ "% confidence",
          none)
  else
    (.COMPLETE,
      "Assessment complete (confidence: " ++ fmt0 overall_confidence ++ "%)",
      none)

/-- `_calculate_skip_rate`. -/
def calculate_skip_rate (js : JourneyState) : ℚ :=
  if js.responses.isEmpty then 0
  else ((js.responses.filter (·.skipped)).length : ℚ) /
    (js.responses.length : ℚ)

/-- `make_decision`: skip-rate abandonment check first, then the main rule
chain. -/
def make_decision (js : JourneyState) (confidence_score : ConfidenceScore) :
    JourneyDecision :=
  let questions_asked := js.current_question_number
  let clarifications_used := js.clarifications_used
  let overall_confidence := confidence_score.overall_confidence
  let skip_rate := calculate_skip_rate js
  if 1/2 < skip_rate ∧ 5 ≤ questions_asked then
    { decision := .SAVE_PARTIAL
      reasoning := "High skip rate detected - saving partial profile"
      next_focus := none
      confidence_score := confidence_score }
  else
    let r := determine_decision questions_asked clarifications_used
      overall_confidence confidence_score
    { decision := r.1
      reasoning := r.2.1
      next_focus := r.2.2
      confidence_score := confidence_score }

/-! ### Signal aggregator, from `CompassOrchestrator._update_current_profile`

Python's `sorted(key=..., reverse=True)` is a stable descending sort; it is
embedded as a stable insertion sort (extensionally equal to any stable
descending sort). -/

/-- Insert `x` into `l` before the first element whose key is strictly
smaller, after all elements with a greater-or-equal key. -/
def insertDescBy (key : α → ℚ) (x : α) : List α → List α
  | [] => [x]
  | y :: ys => if key y < key x then x :: y :: ys else y :: insertDescBy key x ys

/-- Stable descending sort by `key` (`sorted(..., key=key, reverse=True)`). -/
def sortDescBy (key : α → ℚ) (l : List α) : List α :=
  l.foldl (fun acc x => insertDescBy key x acc) []

/-- Deduplication keeping the first occurrence per key (`seen_types` /
`seen_categories` loop). -/
def dedupByKey [DecidableEq β] (key : α → β) : List α → List β → List α
  | [], _ => []
  | x :: xs, seen =>
    if key x ∈ seen then dedupByKey key xs seen
    else x :: dedupByKey key xs (key x :: seen)

/-- Motivator half of `_update_current_profile`: flatten, sort by strength
descending, keep first per type, cap at 12. -/
def aggregateMotivators (analyses : List ResponseAnalysis) :
    List CareerMotivator :=
  (dedupByKey (·.type) (sortDescBy (·.strength) (allMotivators analyses))
    []).take 12

/-- Interest half of `_update_current_profile`: flatten, sort by enthusiasm
descending, keep first per category, cap at 20. -/
def aggregateInterests (analyses : List ResponseAnalysis) : List Interest :=
  (dedupByKey (·.category) (sortDescBy (·.enthusiasm) (allInterests analyses))
    []).take 20

/-- `_update_current_profile` as a state transformer. -/
def update_current_profile (js : JourneyState) : JourneyState :=
  { js with
    identified_motivators := aggregateMotivators js.analyses
    identified_interests := aggregateInterests js.analyses }

/-! ### Orchestrator turn operations, from `compass_orchestrator.py`

The Redis lookup becomes an `Option JourneyState` input (`none` = key
missing); `ValueError` raises become `Except.error`.  Externally produced
data (the generated question, the response analysis) are inputs. -/

/-- Error taxonomy (only `ValueError` lookups fail in the reference code). -/
inductive CompassError
  | notFound (msg : String)
deriving DecidableEq, Repr

/-- The fresh state built by `start_journey` (before the first question is
generated). -/
def start_journey (journey_id user_id : String) : JourneyState where
  journey_id := journey_id
  user_id := user_id
  status := .IN_PROGRESS
  current_question_number := 0
  questions_asked := []
  responses := []
  analyses := []
  current_confidence := none
  identified_motivators := []
  identified_interests := []
  clarifications_used := 0

/-- `generate_next_question`: append the externally generated question,
set the question counter, and count a clarification past question 15.
The journey status is never consulted. -/
def generate_next_question (journey : Option JourneyState)
    (question : GeneratedQuestion) :
    Except CompassError (JourneyState × GeneratedQuestion) :=
  match journey with
  | none => .error (.notFound "Journey not found")
  | some js =>
    let js := { js with questions_asked := js.questions_asked ++ [question] }
    let js := { js with current_question_number := js.questions_asked.length }
    let js :=
      if standard_questions < js.current_question_number then
        { js with clarifications_used := js.clarifications_used + 1 }
      else js
    .ok (js, question)

/-- `process_response`: record the answer and its (externally produced)
analysis, refresh the aggregated profile and confidence, decide, and apply
terminal transitions (`_complete_journey` sets COMPLETED,
`_save_partial_profile` sets ABANDONED; the synthesized profile payload is
external and not modelled).  The journey status is never consulted. -/
def process_response (std : List ℚ → ℚ) (journey : Option JourneyState)
    (question_id response_text : String) (skipped : Bool)
    (analysis : ResponseAnalysis) :
    Except CompassError (JourneyState × JourneyDecision) :=
  match journey with
  | none => .error (.notFound "Journey not found")
  | some js =>
    match js.questions_asked.find? fun q => q.question_id = question_id with
    | none => .error (.notFound "Question not found in journey")
    | some _ =>
      let user_response : UserResponse :=
        { question_id := question_id, response_text := response_text,
          skipped := skipped }
      let js := { js with
        responses := js.responses ++ [user_response]
        analyses := js.analyses ++ [analysis] }
      let js := update_current_profile js
      let confidence_score := calculate_confidence std js
      let js := { js with current_confidence := some confidence_score }
      let decision := make_decision js confidence_score
      let js :=
        match decision.decision with
        | .COMPLETE => { js with status := .COMPLETED }
        | .SAVE_PARTIAL => { js with status := .ABANDONED }
        | _ => js
      .ok (js, decision)

/-- `complete_journey` (the synthesized profile payload is external; the
state effect is the COMPLETED status). -/
def complete_journey (journey : Option JourneyState) :
    Except CompassError JourneyState :=
  match journey with
  | none => .error (.notFound "Journey not found")
  | some js => .ok { js with status := .COMPLETED }

/-- `abandon_journey`. -/
def abandon_journey (journey : Option JourneyState) :
    Except CompassError JourneyState :=
  match journey with
  | none => .error (.notFound "Journey not found")
  | some js => .ok { js with status := .ABANDONED }

/-- Journey states reachable through the orchestrator's turn operations,
for arbitrary externally supplied questions and analyses. -/
inductive Reachable : JourneyState → Prop where
  | start (jid uid : String) : Reachable (start_journey jid uid)
  | next {js js' : JourneyState} {q q' : GeneratedQuestion} :
      Reachable js → generate_next_question (some js) q = .ok (js', q') →
      Reachable js'
  | respond {js js' : JourneyState} {std : List ℚ → ℚ}
      {qid rt : String} {sk : Bool} {an : ResponseAnalysis}
      {d : JourneyDecision} :
      Reachable js →
      process_response std (some js) qid rt sk an = .ok (js', d) →
      Reachable js'
  | complete {js js' : JourneyState} :
      Reachable js → complete_journey (some js) = .ok js' → Reachable js'
  | abandon {js js' : JourneyState} :
      Reachable js → abandon_journey (some js) = .ok js' → Reachable js'

/-! ### Profile synthesizer, from `profile_synthesizer.py` -/

/-- The (score, weight) pairs collected for one dimension inside
`_calculate_final_riasec`: weight = recency * confidence/100 * quality. -/
def synthEntries (analyses : List ResponseAnalysis) (d : Dimension) :
    List (ℚ × ℚ) :=
  analyses.enum.filterMap fun p =>
    ((p.2).riasec_signals d).map fun s =>
      (s.score,
        (1 + ((p.1 : ℚ) / (analyses.length : ℚ)) * (1/2)) *
          (s.confidence / 100) *
          (if (p.2).response_quality = .high then 3/2 else 1))

/-- Per-dimension final score of `_calculate_final_riasec`. -/
def final_dimension_score (analyses : List ResponseAnalysis)
    (d : Dimension) : ℚ :=
  let entries := synthEntries analyses d
  if entries.isEmpty then 0
  else min (weightedAverage entries * 10) 100

/-- `code_map` dict. -/
def code_map : Dimension → String
  | .realistic => "R"
  | .investigative => "I"
  | .artistic => "A"
  | .social => "S"
  | .enterprising => "E"
  | .conventional => "C"

/-- `final_scores.items()`: dimension/score pairs in canonical insertion
order (the dict is filled by iterating the `dimensions` list). -/
def final_scores_list (analyses : List ResponseAnalysis) :
    List (Dimension × ℚ) :=
  riasecDimensions.map fun d => (d, final_dimension_score analyses d)

/-- Python `''.join`. -/
def join_strings : List String → String
  | [] => ""
  | s :: rest => s ++ join_strings rest

/-- The derived Holland code: stable-sort the dimension/score pairs by
score descending, take the top 3, concatenate their letters. -/
def riasec_code (analyses : List ResponseAnalysis) : String :=
  join_strings
    (((sortDescBy (·.2) (final_scores_list analyses)).take 3).map fun p =>
      code_map p.1)

/-! ### Lemmas about the stable descending sort and the keyed dedup -/

section SortLemmas

variable {α : Type} {β : Type} (key : α → ℚ)

theorem mem_insertDescBy {x a : α} {l : List α} :
    a ∈ insertDescBy key x l ↔ a = x ∨ a ∈ l := by
  induction l with
  | nil => simp [insertDescBy]
  | cons y ys ih =>
    simp only [insertDescBy]
    split
    · simp
    · simp only [List.mem_cons, ih]
      tauto

theorem length_insertDescBy (x : α) (l : List α) :
    (insertDescBy key x l).length = l.length + 1 := by
  induction l with
  | nil => rfl
  | cons y ys ih =>
    simp only [insertDescBy]
    split
    · simp
    · simp [ih]

theorem pairwise_insertDescBy {x : α} {l : List α}
    (h : l.Pairwise fun a b => key b ≤ key a) :
    (insertDescBy key x l).Pairwise fun a b => key b ≤ key a := by
  induction l with
  | nil => simp [insertDescBy]
  | cons y ys ih =>
    rw [List.pairwise_cons] at h
    obtain ⟨hy, hys⟩ := h
    simp only [insertDescBy]
    split
    · rename_i hlt
      refine List.Pairwise.cons ?_ (List.Pairwise.cons hy hys)
      intro z hz
      rcases List.mem_cons.mp hz with hz | hz
      · exact hz ▸ le_of_lt hlt
      · exact (hy z hz).trans (le_of_lt hlt)
    · rename_i hge
      refine List.Pairwise.cons ?_ (ih hys)
      intro z hz
      rcases (mem_insertDescBy key).mp hz with hz | hz
      · exact hz ▸ le_of_not_lt hge
      · exact hy z hz

theorem mem_foldl_insertDescBy {a : α} (l acc : List α) :
    a ∈ l.foldl (fun acc x => insertDescBy key x acc) acc ↔
      a ∈ acc ∨ a ∈ l := by
  induction l generalizing acc with
  | nil => simp
  | cons x xs ih =>
    simp only [List.foldl_cons, ih, mem_insertDescBy, List.mem_cons]
    tauto

theorem mem_sortDescBy {a : α} {l : List α} :
    a ∈ sortDescBy key l ↔ a ∈ l := by
  simp [sortDescBy, mem_foldl_insertDescBy]

theorem pairwise_foldl_insertDescBy (l : List α) {acc : List α}
    (h : acc.Pairwise fun a b => key b ≤ key a) :
    (l.foldl (fun acc x => insertDescBy key x acc) acc).Pairwise
      fun a b => key b ≤ key a := by
  induction l generalizing acc with
  | nil => exact h
  | cons x xs ih => exact ih (pairwise_insertDescBy key h)

theorem pairwise_sortDescBy (l : List α) :
    (sortDescBy key l).Pairwise fun a b => key b ≤ key a :=
  pairwise_foldl_insertDescBy key l List.Pairwise.nil

theorem length_foldl_insertDescBy (l acc : List α) :
    (l.foldl (fun acc x => insertDescBy key x acc) acc).length =
      acc.length + l.length := by
  induction l generalizing acc with
  | nil => rfl
  | cons x xs ih =>
    simp only [List.foldl_cons, ih, length_insertDescBy, List.length_cons]
    omega

theorem length_sortDescBy (l : List α) :
    (sortDescBy key l).length = l.length := by
  simp [sortDescBy, length_foldl_insertDescBy]

theorem filter_insertDescBy {acc : List α} (x : α) (c : ℚ)
    (hacc : acc.Pairwise fun a b => key b ≤ key a) :
    (insertDescBy key x acc).filter (fun y => decide (key y = c)) =
      acc.filter (fun y => decide (key y = c)) ++
        (if key x = c then [x] else []) := by
  induction acc with
  | nil =>
    simp only [insertDescBy, List.filter_nil, List.nil_append, List.filter]
    split <;> simp_all
  | cons y ys ih =>
    rw [List.pairwise_cons] at hacc
    obtain ⟨hy, hys⟩ := hacc
    simp only [insertDescBy]
    split
    · rename_i hlt
      by_cases hc : key x = c
      · have hnil : (y :: ys).filter (fun y => decide (key y = c)) = [] := by
          rw [List.filter_eq_nil_iff]
          intro z hz
          have : key z < c := by
            rcases List.mem_cons.mp hz with h | h
            · exact h ▸ hc ▸ hlt
            · exact lt_of_le_of_lt (hy z h) (hc ▸ hlt)
          simp [ne_of_lt this]
        rw [hnil]
        simp [List.filter_cons, hc, hnil]
      · simp [List.filter_cons, hc]
    · rename_i hge
      simp only [List.filter_cons, ih hys]
      split
      · simp only [List.cons_append]
      · rfl

theorem filter_foldl_insertDescBy (l : List α) (c : ℚ) {acc : List α}
    (hacc : acc.Pairwise fun a b => key b ≤ key a) :
    (l.foldl (fun acc x => insertDescBy key x acc) acc).filter
        (fun y => decide (key y = c)) =
      acc.filter (fun y => decide (key y = c)) ++
        l.filter (fun y => decide (key y = c)) := by
  induction l generalizing acc with
  | nil => simp
  | cons x xs ih =>
    simp only [List.foldl_cons]
    rw [ih (pairwise_insertDescBy key hacc), filter_insertDescBy key x c hacc,
      List.append_assoc, List.filter_cons]
    split <;> rename_i h <;> simp_all

/-- Stability of the embedded Python sort: elements sharing one key value
keep their input order. -/
theorem filter_sortDescBy (l : List α) (c : ℚ) :
    (sortDescBy key l).filter (fun y => decide (key y = c)) =
      l.filter (fun y => decide (key y = c)) := by
  simpa using filter_foldl_insertDescBy key l c List.Pairwise.nil

variable [DecidableEq β] (key2 : α → β)

theorem mem_dedupByKey {x : α} {l : List α} {seen : List β}
    (h : x ∈ dedupByKey key2 l seen) : x ∈ l ∧ key2 x ∉ seen := by
  induction l generalizing seen with
  | nil => simp [dedupByKey] at h
  | cons z zs ih =>
    simp only [dedupByKey] at h
    split at h
    · have := ih h
      exact ⟨List.mem_cons_of_mem _ this.1, this.2⟩
    · rcases List.mem_cons.mp h with h | h
      · subst h
        rename_i hz
        exact ⟨List.mem_cons_self _ _, hz⟩
      · have := ih h
        refine ⟨List.mem_cons_of_mem _ this.1, fun hs => this.2 ?_⟩
        exact List.mem_cons_of_mem _ hs

/-- The element kept per key2 class is the first of its class in the input
list: keyed dedup realises the first-occurrence rule. -/
theorem find?_dedupByKey :
    ∀ {l : List α} {seen : List β} {x : α}, x ∈ dedupByKey key2 l seen →
      l.find? (fun y => key2 y = key2 x) = some x := by
  intro l
  induction l with
  | nil => intro seen x hx; simp [dedupByKey] at hx
  | cons z zs ih =>
    intro seen x hx
    simp only [dedupByKey] at hx
    split at hx
    · rename_i hseen
      have hne : ¬ key2 z = key2 x := fun hh =>
        (mem_dedupByKey key2 hx).2 (by rw [← hh]; exact hseen)
      rw [List.find?_cons_of_neg _ (by simpa using hne)]
      exact ih hx
    · rcases List.mem_cons.mp hx with h | h
      · subst h
        rw [List.find?_cons_of_pos _ (by simp)]
      · have hne : ¬ key2 z = key2 x := fun hh =>
          (mem_dedupByKey key2 h).2
            (by rw [← hh]; exact List.mem_cons_self _ _)
        rw [List.find?_cons_of_neg _ (by simpa using hne)]
        exact ih h

theorem nodup_dedupByKey_map (l : List α) (seen : List β) :
    ((dedupByKey key2 l seen).map key2).Nodup := by
  induction l generalizing seen with
  | nil => simp [dedupByKey]
  | cons z zs ih =>
    simp only [dedupByKey]
    split
    · exact ih seen
    · simp only [List.map_cons, List.nodup_cons]
      refine ⟨?_, ih (key2 z :: seen)⟩
      intro hmem
      rcases List.mem_map.mp hmem with ⟨x, hx, hkx⟩
      exact (mem_dedupByKey key2 hx).2 (hkx ▸ List.mem_cons_self _ _)

/-- On a list sorted descending by `key`, keyed dedup keeps, for each key2
class, an element of maximal `key`. -/
theorem dedupByKey_max {l : List α} {seen : List β}
    (hsort : l.Pairwise fun a b => key b ≤ key a) :
    ∀ x ∈ dedupByKey key2 l seen, ∀ y ∈ l, key2 y = key2 x →
      key y ≤ key x := by
  induction l generalizing seen with
  | nil => simp [dedupByKey]
  | cons z zs ih =>
    rw [List.pairwise_cons] at hsort
    obtain ⟨hz, hzs⟩ := hsort
    intro x hx y hy hk
    simp only [dedupByKey] at hx
    split at hx
    · rename_i hseen
      rcases List.mem_cons.mp hy with hy | hy
      · have hmem : key2 x ∈ seen := by rw [← hk, hy]; exact hseen
        exact absurd hmem (mem_dedupByKey key2 hx).2
      · exact ih hzs x hx y hy hk
    · rcases List.mem_cons.mp hx with hx | hx
      · subst hx
        rcases List.mem_cons.mp hy with hy | hy
        · exact hy ▸ le_rfl
        · exact hz y hy
      · rcases List.mem_cons.mp hy with hy | hy
        · have hmem : key2 x ∈ key2 z :: seen := by
            rw [← hk, hy]
            exact List.mem_cons_self _ _
          exact absurd hmem (mem_dedupByKey key2 hx).2
        · exact ih hzs x hx y hy hk

end SortLemmas

/-! ### Concrete sample data used by witnesses and counterexamples -/

/-- A confidence snapshot with no gaps and zero confidence. -/
def sampleCS : ConfidenceScore where
  riasec_confidence := ⟨0, 0, 0, 0, 0, 0⟩
  motivator_confidence := 0
  interest_confidence := 0
  overall_confidence := 0
  ready_to_complete := false
  gaps_remaining := []

/-- One analysis carrying a single realistic signal of confidence 90. -/
def analysis90 : ResponseAnalysis where
  riasec_signals := fun d =>
    if d = .realistic then some { score := 9, confidence := 90 } else none
  motivators := []
  interests := []
  response_quality := .medium

/-! ### C1: totality of the decision rules -/

/-- C1.  The decision machine is total: for every triple
(questionCount ∈ [0,25], clarificationsUsed ∈ [0,3], overall ∈ [0,100]) the
rule chain `_determine_decision` produces exactly one `DecisionType`; being
a total Lean function of the embedded rule chain, it can never fail. -/
theorem C1_decision_total (q c : ℕ) (conf : ℚ) (cs : ConfidenceScore)
    (hq : q ≤ 25) (hc : c ≤ 3) (h0 : 0 ≤ conf) (h1 : conf ≤ 100) :
    ∃! d : DecisionType, (determine_decision q c conf cs).1 = d :=
  ⟨(determine_decision q c conf cs).1, rfl, fun _ h => h.symm⟩

/-- Witness for C1 at (0, 0, 0). -/
theorem C1_decision_total_witness :
    ∃! d : DecisionType, (determine_decision 0 0 0 sampleCS).1 = d :=
  C1_decision_total 0 0 0 sampleCS (by norm_num) (by norm_num) le_rfl
    (by norm_num)

/-! ### C5: the overall-confidence formula -/

/-- clamp(x, lo, hi). -/
def clamp (x lo hi : ℚ) : ℚ := min (max x lo) hi

/-- The overall-confidence formula exactly as the spec words it:
`base = 0.5*mean(6 dimension confidences) + 0.3*motivator + 0.2*interest`;
`overall = clamp(base + adjustment, 0, 100)`. -/
def spec_overall_confidence (riasec : RIASECConfidence)
    (motivator interest adjustment : ℚ) : ℚ :=
  clamp ((1/2) * ((riasec.realistic + riasec.investigative + riasec.artistic
      + riasec.social + riasec.enterprising + riasec.conventional) / 6)
    + (3/10) * motivator + (1/5) * interest + adjustment) 0 100

/-- C5.  For every combination of dimension, motivator and interest
confidences and every skip adjustment, `_calculate_overall_confidence`
equals the spec's clamp formula and in particular lies in [0, 100]. -/
theorem C5_overall_clamped (riasec : RIASECConfidence)
    (motivator interest adjustment : ℚ) :
    calculate_overall_confidence riasec motivator interest adjustment =
        spec_overall_confidence riasec motivator interest adjustment
      ∧ 0 ≤ calculate_overall_confidence riasec motivator interest adjustment
      ∧ calculate_overall_confidence riasec motivator interest adjustment
          ≤ 100 := by
  refine ⟨?_, ?_, ?_⟩
  · simp only [calculate_overall_confidence, spec_overall_confidence, clamp]
    rw [max_comm]
    congr 2
    ring
  · exact le_min (le_max_left 0 _) (by norm_num)
  · exact min_le_right _ _

/-! ### C10: the empty history is safe and scores zero -/

/-- C10.  On a fresh journey (no analyses, no responses, no questions)
`calculate_confidence` succeeds — every division in the scorer is guarded
or unreachable, and the embedded functions are total — and returns zero for
every dimension confidence, the motivator confidence, the interest
confidence, the skip adjustment and the overall confidence, with
`ready_to_complete` false; this holds for every standard-deviation oracle
`std` since no motivator type repeats in an empty history. -/
theorem C10_empty_history (std : List ℚ → ℚ) (jid uid : String) :
    (calculate_confidence std (start_journey jid uid)).riasec_confidence
        = ⟨0, 0, 0, 0, 0, 0⟩
      ∧ (calculate_confidence std (start_journey jid uid)).motivator_confidence
        = 0
      ∧ (calculate_confidence std (start_journey jid uid)).interest_confidence
        = 0
      ∧ calculate_skip_adjustment (start_journey jid uid).responses = 0
      ∧ (calculate_confidence std (start_journey jid uid)).overall_confidence
        = 0
      ∧ (calculate_confidence std (start_journey jid uid)).ready_to_complete
        = false := by
  have hmot : calculate_motivator_confidence std [] = 0 := by
    simp only [calculate_motivator_confidence, allMotivators, List.map_nil,
      List.flatten_nil, List.dedup_nil, List.filterMap_nil, List.length_nil,
      List.isEmpty_nil]
    norm_num [min_def]
  have hover : calculate_overall_confidence ⟨0, 0, 0, 0, 0, 0⟩ 0 0 0 = 0 := by
    norm_num [calculate_overall_confidence, min_def, max_def]
  refine ⟨rfl, ?_, rfl, rfl, ?_, ?_⟩
  · exact hmot
  · show calculate_overall_confidence (calculate_riasec_confidence [])
      (calculate_motivator_confidence std [])
      (calculate_interest_confidence []) (calculate_skip_adjustment []) = 0
    rw [hmot]
    exact hover
  · show is_ready_to_complete
      (calculate_overall_confidence (calculate_riasec_confidence [])
        (calculate_motivator_confidence std [])
        (calculate_interest_confidence []) (calculate_skip_adjustment []))
      0 = false
    rw [hmot]
    rw [show calculate_overall_confidence (calculate_riasec_confidence []) 0
      (calculate_interest_confidence []) (calculate_skip_adjustment [])
        = 0 from hover]
    rfl

/-! ### C6: per-dimension confidence with the few-signals scaling -/

/-- The unscaled per-dimension confidence: weighted average plus the capped
signal-count bonus, capped at 100 (the spec's `confidence` before the
fewer-than-3-signals scaling). -/
def unscaled_dimension_confidence (analyses : List ResponseAnalysis)
    (d : Dimension) : ℚ :=
  min (weightedAverage (dimensionEntries analyses d)
    + min (((dimensionEntries analyses d).length : ℚ) * 5) 20) 100

theorem entries_analysis90 :
    dimensionEntries [analysis90] Dimension.realistic = [((90 : ℚ), 1)] := by
  change [(((90 : ℚ)), 1 + (((0 : ℕ) : ℚ) / (((1 : ℕ) : ℚ))) * (1/2))] = _
  norm_num

theorem analysis90_value :
    riasec_dimension_confidence [analysis90] Dimension.realistic = 95/3 := by
  simp only [riasec_dimension_confidence, entries_analysis90,
    min_signals_for_confidence, weightedAverage]
  norm_num [min_def]

/-- Counterexample to C6 as stated: a single signal of raw confidence 90
yields 95/3 ≈ 31.67 (the 5-point single-signal bonus is added before the
1/3 scaling), not 30. -/
theorem C6_counterexample :
    riasec_dimension_confidence [analysis90] Dimension.realistic = 95/3
      ∧ ¬ riasec_dimension_confidence [analysis90] Dimension.realistic
          = 30 := by
  refine ⟨analysis90_value, ?_⟩
  rw [analysis90_value]
  norm_num

/-- C6 (amended).  With raw the weighted average of signal confidences and
bonus = min(5·count, 20), the dimension confidence is min(raw + bonus, 100),
and with fewer than 3 supporting signals that value is additionally scaled
by count/3; in particular 1 signal at raw confidence 90 yields
95/3 ≈ 31.67 (not 30: the bonus applies before the scaling). -/
theorem C6_amended_scaling (analyses : List ResponseAnalysis) (d : Dimension)
    (hne : (dimensionEntries analyses d).isEmpty = false)
    (h3 : (dimensionEntries analyses d).length < 3) :
    riasec_dimension_confidence analyses d =
        unscaled_dimension_confidence analyses d *
          (((dimensionEntries analyses d).length : ℚ) / 3)
      ∧ riasec_dimension_confidence [analysis90] Dimension.realistic
          = 95/3 := by
  refine ⟨?_, analysis90_value⟩
  simp only [riasec_dimension_confidence, unscaled_dimension_confidence,
    min_signals_for_confidence, hne, Bool.false_eq_true, if_false, h3,
    if_true]
  norm_num

/-- Witness for C6 (amended) at the single-signal history. -/
theorem C6_amended_scaling_witness :
    riasec_dimension_confidence [analysis90] Dimension.realistic =
        unscaled_dimension_confidence [analysis90] Dimension.realistic *
          (((dimensionEntries [analysis90] Dimension.realistic).length : ℚ)
            / 3)
      ∧ riasec_dimension_confidence [analysis90] Dimension.realistic
          = 95/3 :=
  C6_amended_scaling [analysis90] Dimension.realistic
    (by rw [entries_analysis90]; rfl)
    (by rw [entries_analysis90]; norm_num)

/-! ### C4: rule priority -/

/-- C4.  The SavePartial rule (skip_rate > 0.5 and questions ≥ 5) is
evaluated first by `make_decision`; whenever it does not fire,
questions ≥ 12 together with overall ≥ 85 yields Complete (the first rule
of `_determine_decision`), so in particular questions = 12 with
overall = 85 yields Complete. -/
theorem C4_rule_priority (js : JourneyState) (cs : ConfidenceScore) :
    ((1/2 < calculate_skip_rate js ∧ 5 ≤ js.current_question_number) →
      (make_decision js cs).decision = DecisionType.SAVE_PARTIAL)
    ∧ (¬ (1/2 < calculate_skip_rate js ∧ 5 ≤ js.current_question_number) →
      12 ≤ js.current_question_number → 85 ≤ cs.overall_confidence →
      (make_decision js cs).decision = DecisionType.COMPLETE) := by
  constructor
  · intro h
    simp only [make_decision]
    rw [if_pos h]
  · intro h hq hc
    simp only [make_decision]
    rw [if_neg h]
    simp only [determine_decision, min_questions, high_confidence_threshold]
    rw [if_pos ⟨hq, hc⟩]

/-- A snapshot with overall confidence 85. -/
def cs85 : ConfidenceScore := { sampleCS with overall_confidence := 85 }

/-- A journey at question 12 with no responses (skip rate 0). -/
def js12 : JourneyState :=
  { start_journey "j12" "u12" with current_question_number := 12 }

/-- A journey at question 5 whose single response was a skip (rate 1). -/
def jsSkip : JourneyState :=
  { start_journey "jsk" "usk" with
    current_question_number := 5
    responses := [{ question_id := "q1", response_text := "", skipped := true }] }

theorem skip_rate_js12 : calculate_skip_rate js12 = 0 := rfl

theorem skip_rate_jsSkip : calculate_skip_rate jsSkip = 1 := by
  change ((1 : ℕ) : ℚ) / ((1 : ℕ) : ℚ) = 1
  norm_num

/-- Witness for C4 at both concrete inputs: questions = 12, overall = 85
with no skips is Complete; skip rate 1 at question 5 is SavePartial. -/
theorem C4_rule_priority_witness :
    (make_decision js12 cs85).decision = DecisionType.COMPLETE
      ∧ (make_decision jsSkip cs85).decision = DecisionType.SAVE_PARTIAL :=
  ⟨(C4_rule_priority js12 cs85).2
      (by rw [skip_rate_js12]; norm_num)
      le_rfl le_rfl,
    (C4_rule_priority jsSkip cs85).1
      ⟨by rw [skip_rate_jsSkip]; norm_num, le_rfl⟩⟩

/-! ### C3: the decision point at exactly 15 questions -/

/-- C3.  At questions = 15 (skip rule quiet): Complete when overall ≥ 75;
else Clarify while clarifications < 3, with focus "Clarifying: " followed
by the top 2 gaps joined or "lowest confidence areas" when there are none;
else Complete.  In particular at overall = 70 with clarifications = 0 the
decision is Clarify, and generating the next (16th) question bumps the
journey's clarification counter to 1. -/
theorem C3_fifteen_questions (js : JourneyState) (cs : ConfidenceScore)
    (q : GeneratedQuestion)
    (hq : js.current_question_number = 15)
    (hlen : js.questions_asked.length = 15)
    (hskip : ¬ (1/2 < calculate_skip_rate js ∧
      5 ≤ js.current_question_number)) :
    (75 ≤ cs.overall_confidence →
      (make_decision js cs).decision = DecisionType.COMPLETE)
    ∧ (cs.overall_confidence < 75 → js.clarifications_used < 3 →
        (make_decision js cs).decision = DecisionType.CLARIFY ∧
        (make_decision js cs).next_focus = some ("Clarifying: " ++
          (if (cs.gaps_remaining.take 2).isEmpty then
            "lowest confidence areas"
          else String.intercalate ", " (cs.gaps_remaining.take 2))))
    ∧ (cs.overall_confidence < 75 → 3 ≤ js.clarifications_used →
        (make_decision js cs).decision = DecisionType.COMPLETE)
    ∧ (cs.overall_confidence = 70 → js.clarifications_used = 0 →
        (make_decision js cs).decision = DecisionType.CLARIFY ∧
        ∀ js' q', generate_next_question (some js) q = .ok (js', q') →
          js'.clarifications_used = 1) := by
  have main2 : cs.overall_confidence < 75 → js.clarifications_used < 3 →
      (make_decision js cs).decision = DecisionType.CLARIFY ∧
      (make_decision js cs).next_focus = some ("Clarifying: " ++
        (if (cs.gaps_remaining.take 2).isEmpty then
          "lowest confidence areas"
        else String.intercalate ", " (cs.gaps_remaining.take 2))) := by
    intro h75 hcl
    have key : determine_decision js.current_question_number
        js.clarifications_used cs.overall_confidence cs =
        (DecisionType.CLARIFY,
          "Confidence at " ++ fmt0 cs.overall_confidence
            ++ "% - clarifying key gaps",
          some ("Clarifying: " ++
            (if (cs.gaps_remaining.take 2).isEmpty then
              "lowest confidence areas"
            else String.intercalate ", " (cs.gaps_remaining.take 2)))) := by
      simp only [determine_decision, min_questions, standard_questions,
        max_clarifications, high_confidence_threshold,
        acceptable_confidence_threshold]
      rw [if_neg (fun hand => absurd hand.2 (by linarith)),
        if_neg (by rw [hq]; norm_num), if_pos hq,
        if_neg (not_le.mpr h75), if_pos hcl]
    constructor
    · simp only [make_decision]
      rw [if_neg hskip, key]
    · simp only [make_decision]
      rw [if_neg hskip, key]
  refine ⟨?_, main2, ?_, ?_⟩
  · intro h75
    by_cases h85 : 85 ≤ cs.overall_confidence
    · simp only [make_decision]
      rw [if_neg hskip]
      simp only [determine_decision, min_questions, high_confidence_threshold]
      rw [if_pos ⟨by rw [hq]; norm_num, h85⟩]
    · simp only [make_decision]
      rw [if_neg hskip]
      simp only [determine_decision, min_questions, standard_questions,
        high_confidence_threshold, acceptable_confidence_threshold]
      rw [if_neg (fun hand => h85 hand.2), if_neg (by rw [hq]; norm_num),
        if_pos hq, if_pos h75]
  · intro h75 hcl3
    simp only [make_decision]
    rw [if_neg hskip]
    simp only [determine_decision, min_questions, standard_questions,
      max_clarifications, high_confidence_threshold,
      acceptable_confidence_threshold]
    rw [if_neg (fun hand => absurd hand.2 (by linarith)),
      if_neg (by rw [hq]; norm_num), if_pos hq,
      if_neg (not_le.mpr h75), if_neg (not_lt.mpr hcl3)]
  · intro h70 hc0
    refine ⟨(main2 (by rw [h70]; norm_num) (by omega)).1, ?_⟩
    intro js' q' hgen
    simp only [generate_next_question] at hgen
    rw [Except.ok.injEq, Prod.mk.injEq] at hgen
    obtain ⟨hA, _⟩ := hgen
    rw [← hA]
    split
    · show js.clarifications_used + 1 = 1
      omega
    · rename_i hcond
      exfalso
      apply hcond
      show standard_questions < (js.questions_asked ++ [q]).length
      rw [List.length_append, hlen]
      simp [standard_questions]

/-- A journey at question 15 with 15 questions asked, no responses and no
clarifications used. -/
def js15 : JourneyState :=
  { start_journey "j15" "u15" with
    current_question_number := 15
    questions_asked := (List.range 15).map fun i =>
      { question_id := toString i, question_number := i + 1 } }

/-- A snapshot with overall confidence 70. -/
def cs70 : ConfidenceScore := { sampleCS with overall_confidence := 70 }

/-- A 16th question. -/
def q16 : GeneratedQuestion := { question_id := "q16", question_number := 16 }

/-- Witness for C3 at (15 questions, overall 70, 0 clarifications). -/
theorem C3_fifteen_questions_witness :
    (make_decision js15 cs70).decision = DecisionType.CLARIFY ∧
      ∀ js' q', generate_next_question (some js15) q16 = .ok (js', q') →
        js'.clarifications_used = 1 :=
  ((C3_fifteen_questions js15 cs70 q16 rfl (by simp [js15])
      (by rw [show calculate_skip_rate js15 = 0 from rfl]; norm_num)).2.2.2)
    rfl rfl

/-! ### C2: no terminal-state guard in the reference orchestrator -/

/-- A first question. -/
def q0 : GeneratedQuestion := { question_id := "q0", question_number := 1 }

/-- A journey completed straight after start. -/
def jsDone : JourneyState :=
  { start_journey "jx" "ux" with status := JourneyStatus.COMPLETED }

/-- A completed journey that has one question on record. -/
def jsDoneQ : JourneyState :=
  { jsDone with questions_asked := [q0], current_question_number := 1 }

/-- Counterexample to C2 as stated: on a COMPLETED journey (reached via
`complete_journey`), `generate_next_question` does not fail — it returns
ok and appends a question — and `process_response` on a valid question id
also returns ok; neither operation inspects the status. -/
theorem C2_counterexample :
    complete_journey (some (start_journey "jx" "ux")) = Except.ok jsDone
      ∧ jsDone.status = JourneyStatus.COMPLETED
      ∧ generate_next_question (some jsDone) q0 =
          Except.ok ({ jsDone with
            questions_asked := [q0], current_question_number := 1 }, q0)
      ∧ (∃ r, process_response (fun _ => 0) (some jsDoneQ) "q0" "hello" false
          analysis90 = Except.ok r) :=
  ⟨rfl, rfl, rfl, ⟨_, rfl⟩⟩

/-- C2 (amended).  The reference `generate_next_question` and
`process_response` never check the journey status: on any journey state —
including Completed or Abandoned — they succeed and mutate it (question
appended, status untouched by question generation; response recorded),
and only a missing journey, or an unknown question id, fails (NotFound). -/
theorem C2_no_terminal_guard (js : JourneyState) (q : GeneratedQuestion) :
    (∃ js', generate_next_question (some js) q = .ok (js', q) ∧
      js'.questions_asked.length = js.questions_asked.length + 1 ∧
      js'.status = js.status)
    ∧ generate_next_question (none : Option JourneyState) q =
        .error (.notFound "Journey not found")
    ∧ ∀ (std : List ℚ → ℚ) (qid rt : String) (sk : Bool)
        (an : ResponseAnalysis),
        (js.questions_asked.find? fun qq =>
          qq.question_id = qid).isSome = true →
        ∃ r, process_response std (some js) qid rt sk an = .ok r := by
  refine ⟨⟨_, rfl, ?_, ?_⟩, rfl, ?_⟩
  · show ((if standard_questions <
        (js.questions_asked ++ [q]).length then _ else _ :
        JourneyState)).questions_asked.length = _
    split <;> simp
  · show ((if standard_questions <
        (js.questions_asked ++ [q]).length then _ else _ :
        JourneyState)).status = _
    split <;> rfl
  · intro std qid rt sk an hfound
    cases hfind : js.questions_asked.find? fun qq =>
        qq.question_id = qid with
    | none => rw [hfind] at hfound; simp at hfound
    | some qq =>
      exact ⟨_, by simp only [process_response, hfind]; rfl⟩

/-- Witness for C2 (amended): respond succeeds on a COMPLETED journey whose
question list contains the answered question. -/
theorem C2_no_terminal_guard_witness :
    ∃ r, process_response (fun _ => 0) (some jsDoneQ) "q0" "hello" false
      analysis90 = .ok r :=
  (C2_no_terminal_guard jsDoneQ q0).2.2 (fun _ => 0) "q0" "hello" false
    analysis90 rfl

/-! ### C8: the clarification counter along reachable journeys -/

theorem process_response_preserves {std : List ℚ → ℚ} {js js' : JourneyState}
    {qid rt : String} {sk : Bool} {an : ResponseAnalysis}
    {d : JourneyDecision}
    (h : process_response std (some js) qid rt sk an = .ok (js', d)) :
    js'.questions_asked = js.questions_asked
      ∧ js'.current_question_number = js.current_question_number
      ∧ js'.clarifications_used = js.clarifications_used := by
  simp only [process_response] at h
  cases hfind : js.questions_asked.find? fun qq =>
      qq.question_id = qid with
  | none => simp only [hfind] at h; cases h
  | some qq =>
    simp only [hfind] at h
    rw [Except.ok.injEq, Prod.mk.injEq] at h
    obtain ⟨hA, _⟩ := h
    rw [← hA]
    split <;> exact ⟨rfl, rfl, rfl⟩

theorem generate_next_question_fields {js js' : JourneyState}
    {q q' : GeneratedQuestion}
    (h : generate_next_question (some js) q = .ok (js', q')) :
    js'.questions_asked = js.questions_asked ++ [q]
      ∧ js'.current_question_number = js.questions_asked.length + 1
      ∧ js'.clarifications_used =
        (if 15 < js.questions_asked.length + 1 then
          js.clarifications_used + 1
        else js.clarifications_used) := by
  simp only [generate_next_question] at h
  rw [Except.ok.injEq, Prod.mk.injEq] at h
  obtain ⟨hA, _⟩ := h
  rw [← hA]
  refine ⟨?_, ?_, ?_⟩
  · split <;> rfl
  · split <;> (show (js.questions_asked ++ [q]).length = _; simp)
  · split
    · rename_i hc
      rw [if_pos (by simpa [standard_questions] using hc)]
    · rename_i hc
      rw [if_neg (by simpa [standard_questions] using hc)]

/-- C8 (amended).  Along every journey reachable through the orchestrator's
operations, the question counter equals the number of questions generated
and the clarification counter equals max(0, questionCount − 15); hence the
counter is within [0, 3] exactly as long as at most 18 questions have been
generated — the code never enforces the upper bound itself. -/
theorem C8_clarifications_law (js : JourneyState) (h : Reachable js) :
    js.current_question_number = js.questions_asked.length
      ∧ js.clarifications_used = js.current_question_number - 15
      ∧ (js.clarifications_used ≤ 3 ↔ js.current_question_number ≤ 18) := by
  induction h with
  | start jid uid => exact ⟨rfl, rfl, by simp [start_journey]⟩
  | next hre hgen ih =>
    obtain ⟨hqa, hcqn, hclar⟩ := generate_next_question_fields hgen
    obtain ⟨ih1, ih2, ih3⟩ := ih
    refine ⟨?_, ?_, ?_⟩
    · rw [hcqn, hqa]
      simp
    · rw [hclar, hcqn]
      split <;> omega
    · rw [hclar, hcqn]
      split <;> omega
  | respond hre hproc ih =>
    obtain ⟨h1, h2, h3⟩ := process_response_preserves hproc
    exact ⟨by rw [h2, h1]; exact ih.1, by rw [h3, h2]; exact ih.2.1,
      by rw [h3, h2]; exact ih.2.2⟩
  | complete hre hcomp ih =>
    simp only [complete_journey, Except.ok.injEq] at hcomp
    rw [← hcomp]
    exact ih
  | abandon hre hab ih =>
    simp only [abandon_journey, Except.ok.injEq] at hab
    rw [← hab]
    exact ih

/-- Witness for C8 (amended) at a freshly started journey. -/
theorem C8_clarifications_law_witness :
    (start_journey "a" "b").clarifications_used ≤ 3 ↔
      (start_journey "a" "b").current_question_number ≤ 18 :=
  (C8_clarifications_law _ (Reachable.start "a" "b")).2.2

/-- One `generate_next_question` step with a fixed dummy question. -/
def gnqStep (js : JourneyState) : JourneyState :=
  match generate_next_question (some js) q0 with
  | .ok (js', _) => js'
  | .error _ => js

/-- The journey obtained by starting and generating n questions. -/
def jsN : ℕ → JourneyState
  | 0 => start_journey "jn" "un"
  | n + 1 => gnqStep (jsN n)

theorem gnq_gnqStep (js : JourneyState) :
    generate_next_question (some js) q0 = .ok (gnqStep js, q0) := rfl

theorem reachable_jsN : ∀ n, Reachable (jsN n)
  | 0 => Reachable.start "jn" "un"
  | n + 1 => Reachable.next (reachable_jsN n) (gnq_gnqStep (jsN n))

/-- Counterexample to C8 as stated: after 19 question generations — each a
plain orchestrator operation — the clarification counter reaches 4,
outside [0, 3]. -/
theorem C8_counterexample :
    Reachable (jsN 19) ∧ (jsN 19).clarifications_used = 4
      ∧ ¬ (jsN 19).clarifications_used ≤ 3 :=
  ⟨reachable_jsN 19, by decide, by decide⟩

/-! ### C7: the signal aggregator -/

theorem dedup_sorted_take_spec {α : Type} (key : α → ℚ) (key2 : α → String)
    (l : List α) (n : ℕ) :
    (((dedupByKey key2 (sortDescBy key l) []).take n).map key2).Nodup
      ∧ ((dedupByKey key2 (sortDescBy key l) []).take n).length ≤ n
      ∧ (∀ x ∈ (dedupByKey key2 (sortDescBy key l) []).take n,
          x ∈ l ∧ ∀ y ∈ l, key2 y = key2 x → key y ≤ key x)
      ∧ ∀ x ∈ (dedupByKey key2 (sortDescBy key l) []).take n,
          (sortDescBy key l).find? (fun y => key2 y = key2 x) = some x := by
  refine ⟨?_, List.length_take_le _ _, ?_, ?_⟩
  · exact (nodup_dedupByKey_map key2 (sortDescBy key l) []).sublist
      ((List.take_sublist _ _).map key2)
  · intro x hx
    have hx' : x ∈ dedupByKey key2 (sortDescBy key l) [] :=
      List.mem_of_mem_take hx
    refine ⟨(mem_sortDescBy key).mp (mem_dedupByKey key2 hx').1, ?_⟩
    intro y hy hk
    exact dedupByKey_max key key2 (pairwise_sortDescBy key l) x hx' y
      ((mem_sortDescBy key).mpr hy) hk
  · intro x hx
    exact find?_dedupByKey key2 (List.mem_of_mem_take hx)

/-- C7.  The aggregator is a pure, deterministic function of the analysis
history: re-running `_update_current_profile` changes nothing.  In its
output each motivator type occurs at most once, the list is capped to 12,
every kept motivator carries the maximal strength recorded for its type,
and — the tie-break law — each kept motivator is exactly the FIRST element
of its type in the flattened, strength-sorted list, where that stable sort
keeps tied-strength entries in their flattened (history) order; interests
behave symmetrically, keyed by category, ranked by enthusiasm, capped to
20. -/
theorem C7_aggregator_laws (js : JourneyState) :
    update_current_profile (update_current_profile js) =
        update_current_profile js
      ∧ ((aggregateMotivators js.analyses).map (·.type)).Nodup
      ∧ (aggregateMotivators js.analyses).length ≤ 12
      ∧ (∀ m ∈ aggregateMotivators js.analyses,
          m ∈ allMotivators js.analyses ∧
          ∀ m' ∈ allMotivators js.analyses, m'.type = m.type →
            m'.strength ≤ m.strength)
      ∧ (∀ m ∈ aggregateMotivators js.analyses,
          (sortDescBy (·.strength) (allMotivators js.analyses)).find?
            (fun y => y.type = m.type) = some m)
      ∧ (∀ c : ℚ,
          (sortDescBy (·.strength) (allMotivators js.analyses)).filter
              (fun y => decide (y.strength = c)) =
            (allMotivators js.analyses).filter
              (fun y => decide (y.strength = c)))
      ∧ ((aggregateInterests js.analyses).map (·.category)).Nodup
      ∧ (aggregateInterests js.analyses).length ≤ 20
      ∧ (∀ x ∈ aggregateInterests js.analyses,
          x ∈ allInterests js.analyses ∧
          ∀ x' ∈ allInterests js.analyses, x'.category = x.category →
            x'.enthusiasm ≤ x.enthusiasm)
      ∧ (∀ x ∈ aggregateInterests js.analyses,
          (sortDescBy (·.enthusiasm) (allInterests js.analyses)).find?
            (fun y => y.category = x.category) = some x)
      ∧ ∀ c : ℚ,
          (sortDescBy (·.enthusiasm) (allInterests js.analyses)).filter
              (fun y => decide (y.enthusiasm = c)) =
            (allInterests js.analyses).filter
              (fun y => decide (y.enthusiasm = c)) := by
  obtain ⟨hm1, hm2, hm3, hm4⟩ :=
    dedup_sorted_take_spec (·.strength) (·.type) (allMotivators js.analyses)
      12
  obtain ⟨hi1, hi2, hi3, hi4⟩ :=
    dedup_sorted_take_spec (·.enthusiasm) (·.category)
      (allInterests js.analyses) 20
  exact ⟨rfl, hm1, hm2, hm3, hm4,
    fun c => filter_sortDescBy (·.strength) (allMotivators js.analyses) c,
    hi1, hi2, hi3, hi4,
    fun c => filter_sortDescBy (·.enthusiasm) (allInterests js.analyses) c⟩

/-- An analysis with two "growth" motivators tied at strength 7 (the
earlier one carries confidence 80) and two "technology" interests tied at
enthusiasm 8. -/
def analysisTie : ResponseAnalysis where
  riasec_signals := fun _ => none
  motivators := [⟨"growth", 7, 80⟩, ⟨"growth", 7, 60⟩, ⟨"autonomy", 5, 50⟩]
  interests := [⟨"technology", "ai", 8⟩, ⟨"technology", "robots", 8⟩]
  response_quality := .low

/-- A journey whose history is that single analysis. -/
def jsW7 : JourneyState :=
  { start_journey "j7" "u7" with analyses := [analysisTie] }

/-- Witness for C7 on a history with a genuine strength tie: the kept
"growth" entry is the confidence-80 instance — the earliest of the two
tied-strength instances in the flattened, strength-sorted order — it is
first of its type in that order, and it dominates the other instance. -/
theorem C7_aggregator_laws_witness :
    (sortDescBy (·.strength) (allMotivators jsW7.analyses)).find?
        (fun y => y.type = (⟨"growth", 7, 80⟩ : CareerMotivator).type) =
      some ⟨"growth", 7, 80⟩
    ∧ (⟨"growth", 7, 60⟩ : CareerMotivator).strength ≤
        (⟨"growth", 7, 80⟩ : CareerMotivator).strength :=
  ⟨(C7_aggregator_laws jsW7).2.2.2.2.1 ⟨"growth", 7, 80⟩ (by decide),
    ((C7_aggregator_laws jsW7).2.2.2.1 ⟨"growth", 7, 80⟩ (by decide)).2
      ⟨"growth", 7, 60⟩ (by decide) rfl⟩

/-! ### C9: the derived 3-letter code -/

/-- C9.  The dimension/score pairs are sorted by score descending with the
stable sort preserving the canonical dimension order among tied scores
(not input order — the pair list is always built in canonical order), and
the code concatenates the letters of the first three; consequently, when
one dimension's score strictly dominates all others, the code's first
letter is that dimension's canonical letter. -/
theorem C9_code (analyses : List ResponseAnalysis) :
    (sortDescBy (·.2) (final_scores_list analyses)).Pairwise
        (fun p q => q.2 ≤ p.2)
      ∧ (∀ c : ℚ,
          (sortDescBy (·.2) (final_scores_list analyses)).filter
              (fun p => decide (p.2 = c)) =
            (final_scores_list analyses).filter (fun p => decide (p.2 = c)))
      ∧ ∀ d : Dimension,
          (∀ d', d' ≠ d → final_dimension_score analyses d' <
            final_dimension_score analyses d) →
          ∃ rest, riasec_code analyses = code_map d ++ rest := by
  refine ⟨pairwise_sortDescBy _ _, fun c => filter_sortDescBy _ _ c, ?_⟩
  intro d hdom
  have hmemL : (d, final_dimension_score analyses d) ∈
      final_scores_list analyses := by
    simp only [final_scores_list, List.mem_map]
    exact ⟨d, by cases d <;> simp [riasecDimensions], rfl⟩
  have hlenS : (sortDescBy (·.2) (final_scores_list analyses)).length = 6 := by
    rw [length_sortDescBy]
    simp [final_scores_list, riasecDimensions]
  cases hS : sortDescBy (·.2) (final_scores_list analyses) with
  | nil => rw [hS] at hlenS; simp at hlenS
  | cons p t =>
    have hpair := pairwise_sortDescBy (fun x : Dimension × ℚ => x.2)
      (final_scores_list analyses)
    rw [hS, List.pairwise_cons] at hpair
    obtain ⟨hp, _⟩ := hpair
    have hcode : riasec_code analyses = code_map p.1 ++
        join_strings ((t.take 2).map fun z => code_map z.1) := by
      simp only [riasec_code, hS, List.take_succ_cons, List.map_cons,
        join_strings]
    have hd_mem_S : (d, final_dimension_score analyses d) ∈
        sortDescBy (·.2) (final_scores_list analyses) :=
      (mem_sortDescBy _).mpr hmemL
    rw [hS] at hd_mem_S
    rcases List.mem_cons.mp hd_mem_S with heq | hmt
    · exact ⟨_, by rw [hcode, ← heq]⟩
    · have hpL : p ∈ final_scores_list analyses := by
        apply (mem_sortDescBy (fun x : Dimension × ℚ => x.2)).mp
        rw [hS]
        exact List.mem_cons_self _ _
      obtain ⟨d0, _, hpd0⟩ := List.mem_map.mp
        (by simpa only [final_scores_list] using hpL)
      by_cases hd0d : d0 = d
      · exact ⟨_, by rw [hcode, ← hpd0, hd0d]⟩
      · exfalso
        have h1 : final_dimension_score analyses d0 <
            final_dimension_score analyses d := hdom d0 hd0d
        have h2 : final_dimension_score analyses d ≤ p.2 := hp _ hmt
        rw [← hpd0] at h2
        exact absurd h1 (not_lt.mpr h2)

/-- An analysis with a single dominant artistic signal at max score. -/
def aDom : ResponseAnalysis where
  riasec_signals := fun d =>
    if d = .artistic then some { score := 10, confidence := 100 } else none
  motivators := []
  interests := []
  response_quality := .high

theorem aDom_score_artistic :
    final_dimension_score [aDom] Dimension.artistic = 100 := by
  have he : synthEntries [aDom] Dimension.artistic =
      [((10 : ℚ),
        (1 + (((0 : ℕ) : ℚ) / (((1 : ℕ) : ℚ))) * (1/2)) * ((100 : ℚ) / 100)
          * (3/2))] := rfl
  simp only [final_dimension_score, he, weightedAverage]
  norm_num [min_def]

theorem aDom_score_other (d : Dimension) (hd : d ≠ Dimension.artistic) :
    final_dimension_score [aDom] d = 0 := by
  cases d with
  | artistic => exact absurd rfl hd
  | realistic => rfl
  | investigative => rfl
  | social => rfl
  | enterprising => rfl
  | conventional => rfl

/-- Witness for C9 at the dominant-artistic history: the code starts
with "A". -/
theorem C9_code_witness :
    ∃ rest, riasec_code [aDom] = code_map Dimension.artistic ++ rest :=
  (C9_code [aDom]).2.2 Dimension.artistic (by
    intro d' hd'
    rw [aDom_score_artistic, aDom_score_other d' hd']
    norm_num)

end Compass
